import Mathlib

/-!
Verification of the TriSense AI multi-signal consensus and alerting engine
(`backend/` of the repository) against its natural-language specification.

Embedding conventions:
* Python floats are embedded as exact rationals (`ℚ`); decimal literals such
  as `0.9` become `9/10`.  All claims settled here are about the control flow
  and order comparisons of the code, which these rationals reproduce exactly.
* `numpy.std v` is `Real.sqrt` of the population variance of `v`.  Since every
  property proved about a standard deviation here is an order comparison with
  a non-negative rational constant (`std > 0`, `std ≥ 1`, `std < 1`), we embed
  the *square* of the standard deviation (`popVar`, and `flooredVarStd` for the
  value stored by `_establish_baseline`); `std ▷ c` holds iff `std² ▷ c²` for
  non-negative `c`, so nothing is lost.
* The six per-vital deques of `PatientBuffer` are appended in lockstep by
  `add_vitals`, so they are embedded as a single list of readings
  (`Vital → ℚ`) together with per-vital projections; `size()` (the length of
  the `timestamps` deque) is the length of that list.
-/

/-- The six vital signs tracked by `PatientBuffer`. -/
inductive Vital
  | hr | sbp | dbp | rr | spo2 | temp
  deriving DecidableEq, Repr

/-- All six vitals, in the iteration order used throughout `backend`. -/
def allVitals : List Vital := [.hr, .sbp, .dbp, .rr, .spo2, .temp]

/-- One vitals reading: a value for each vital (the ingestion boundary
validates readings, so the `dict.get(..., 0)` defaults of `add_vitals`
are modelled by a total function). -/
def Reading : Type := Vital → ℚ

/-- Embeds `backend/models/patient_buffer.py` `PatientBuffer`, restricted to the
fields the verified claims touch.  `baselineStdSq` stores the square of
`baseline_std` (see the header comment). -/
structure PatientBuffer where
  maxSize : ℕ
  readings : List Reading
  baseline : Option (Vital → ℚ)
  baselineStdSq : Option (Vital → ℚ)
  baselineEstablished : Bool

/-- A fresh buffer, as built by `PatientBuffer.__init__`. -/
def mkBuffer (cap : ℕ) : PatientBuffer :=
  { maxSize := cap, readings := [], baseline := none,
    baselineStdSq := none, baselineEstablished := false }

/-- Embeds `PatientBuffer.size`. -/
def PatientBuffer.size (b : PatientBuffer) : ℕ := b.readings.length

/-- Models `deque(maxlen = cap).append x`: append on the right,
evicting from the left when over capacity. -/
def dequeAppend (cap : ℕ) (l : List Reading) (x : Reading) : List Reading :=
  let l' := l ++ [x]
  if cap < l'.length then l'.drop (l'.length - cap) else l'

/-- Arithmetic mean of a list of rationals (`numpy.mean`). -/
def listMean (l : List ℚ) : ℚ := l.sum / (l.length : ℚ)

/-- Population variance of a list of rationals; `numpy.std l` is its
square root. -/
def popVar (l : List ℚ) : ℚ :=
  (l.map (fun x => (x - listMean l) ^ 2)).sum / (l.length : ℚ)

/-- The square of the per-vital value stored in `baseline_std` by
`_establish_baseline`: `np.std(v) if np.std(v) > 0 else 1.0`.  Squaring
commutes with the branch because `std > 0 ↔ std² > 0` and `1² = 1`. -/
def flooredVarStd (l : List ℚ) : ℚ :=
  if 0 < popVar l then popVar l else 1

/-- The per-vital series of a buffer (`get_series`, oldest first). -/
def PatientBuffer.series (b : PatientBuffer) (v : Vital) : List ℚ :=
  b.readings.map (fun r => r v)

/-- Embeds `PatientBuffer._establish_baseline`: mean and (squared) std of the
first 20 entries of every per-vital series; no-op below 10 readings. -/
def establishBaseline (b : PatientBuffer) : PatientBuffer :=
  if b.size < 10 then b
  else
    { b with
      baseline := some (fun v => listMean ((b.series v).take 20)),
      baselineStdSq := some (fun v => flooredVarStd ((b.series v).take 20)),
      baselineEstablished := true }

/-- Embeds `PatientBuffer.add_vitals`: append the reading (evicting the oldest at
capacity), then establish the baseline once size first reaches 20. -/
def addVitals (b : PatientBuffer) (r : Reading) : PatientBuffer :=
  let b' := { b with readings := dequeAppend b.maxSize b.readings r }
  if ¬ b'.baselineEstablished ∧ 20 ≤ b'.size then establishBaseline b' else b'

/-- The (squared) baseline std of one vital, when established. -/
def baselineStdSqAt (b : PatientBuffer) (v : Vital) : Option ℚ :=
  b.baselineStdSq.map (fun f => f v)

/-- Embeds `BaselineDriftAgent.learn_baseline` per-vital std (squared), for a
non-empty window: `np.std(arr) if np.std(arr) > 0 else 1.0`, and `1.0`
for an empty window (`backend/agents/drift_agent.py`). -/
def learnBaselineStdSq (arr : List ℚ) : ℚ :=
  if 0 < arr.length then (if 0 < popVar arr then popVar arr else 1) else 1

/-! ### Baseline facts (claims C2 and C3) -/

/-- Population variance is non-negative. -/
theorem popVar_nonneg (l : List ℚ) : 0 ≤ popVar l := by
  unfold popVar
  apply div_nonneg
  · apply List.sum_nonneg
    intro x hx
    obtain ⟨y, _, rfl⟩ := List.mem_map.mp hx
    positivity
  · exact Nat.cast_nonneg _

/-- The stored (squared) baseline std is strictly positive. -/
theorem flooredVarStd_pos (l : List ℚ) : 0 < flooredVarStd l := by
  unfold flooredVarStd
  split
  · assumption
  · norm_num

/-- Applying `add_vitals` to a buffer whose baseline is already established leaves
all three baseline fields unchanged. -/
theorem addVitals_baseline_frame (b : PatientBuffer) (r : Reading)
    (h : b.baselineEstablished = true) :
    (addVitals b r).baseline = b.baseline ∧
    (addVitals b r).baselineStdSq = b.baselineStdSq ∧
    (addVitals b r).baselineEstablished = true := by
  simp [addVitals, h]

/-- Folding any further readings over an established buffer leaves all
three baseline fields unchanged. -/
theorem foldl_baseline_frame (more : List Reading) (b : PatientBuffer)
    (h : b.baselineEstablished = true) :
    (more.foldl addVitals b).baseline = b.baseline ∧
    (more.foldl addVitals b).baselineStdSq = b.baselineStdSq ∧
    (more.foldl addVitals b).baselineEstablished = true := by
  induction more generalizing b with
  | nil => exact ⟨rfl, rfl, h⟩
  | cons r rest ih =>
    obtain ⟨h1, h2, h3⟩ := addVitals_baseline_frame b r h
    obtain ⟨g1, g2, g3⟩ := ih (addVitals b r) h3
    exact ⟨by rw [List.foldl_cons, g1, h1], by rw [List.foldl_cons, g2, h2],
           by rw [List.foldl_cons, g3]⟩
theorem addVitals_no_establish (cap : ℕ) (l : List Reading) (x : Reading)
    (hlen : l.length + 1 ≤ cap) (hsmall : l.length + 1 < 20) :
    addVitals ⟨cap, l, none, none, false⟩ x = ⟨cap, l ++ [x], none, none, false⟩ := by
  have hd : dequeAppend cap l x = l ++ [x] := by
    unfold dequeAppend
    simp only [List.length_append, List.length_singleton]
    rw [if_neg (by omega)]
  simp only [addVitals, hd, PatientBuffer.size]
  rw [if_neg (by simp [List.length_append]; omega)]

theorem foldl_fresh_small (cap : ℕ) (ks : List Reading)
    (h1 : ks.length ≤ 19) (h2 : ks.length ≤ cap) :
    ks.foldl addVitals (mkBuffer cap) = ⟨cap, ks, none, none, false⟩ := by
  induction ks using List.reverseRecOn with
  | nil => rfl
  | append_singleton l x ih =>
    rw [List.length_append, List.length_singleton] at h1 h2
    rw [List.foldl_append, List.foldl_cons, List.foldl_nil,
        ih (by omega) (by omega),
        addVitals_no_establish cap l x (by omega) (by omega)]

theorem addVitals_establishes (cap : ℕ) (l : List Reading) (x : Reading)
    (hlen : l.length = 19) (hcap : 20 ≤ cap) :
    addVitals ⟨cap, l, none, none, false⟩ x =
      ⟨cap, l ++ [x],
       some (fun v => listMean ((l ++ [x]).map (fun r => r v))),
       some (fun v => flooredVarStd ((l ++ [x]).map (fun r => r v))),
       true⟩ := by
  have hd : dequeAppend cap l x = l ++ [x] := by
    unfold dequeAppend
    simp only [List.length_append, List.length_singleton]
    rw [if_neg (by omega)]
  have htake : ∀ v : Vital,
      (((l ++ [x]).map (fun r => r v)).take 20) = (l ++ [x]).map (fun r => r v) :=
    fun v => List.take_of_length_le (by simp [hlen])
  simp only [addVitals, hd, PatientBuffer.size]
  rw [if_pos (by simp [List.length_append]; omega)]
  simp only [establishBaseline, PatientBuffer.size, PatientBuffer.series]
  rw [if_neg (by simp [List.length_append]; omega)]
  simp only [htake]

theorem foldl_fresh_twenty (cap : ℕ) (hcap : 20 ≤ cap) (l : List Reading)
    (hl : l.length = 20) :
    l.foldl addVitals (mkBuffer cap) =
      ⟨cap, l,
       some (fun v => listMean (l.map (fun r => r v))),
       some (fun v => flooredVarStd (l.map (fun r => r v))),
       true⟩ := by
  have hne : l ≠ [] := by intro h; rw [h] at hl; simp at hl
  have hsplit := List.dropLast_append_getLast hne
  have hdl : l.dropLast.length = 19 := by rw [List.length_dropLast, hl]
  conv_lhs => rw [← hsplit]
  rw [List.foldl_append, List.foldl_cons, List.foldl_nil,
      foldl_fresh_small cap l.dropLast (by omega) (by omega),
      addVitals_establishes cap l.dropLast (l.getLast hne) hdl hcap,
      hsplit]

/-- C3: baseline is established exactly when 20 readings have been appended,
from the first 20 readings ever appended, and is then invariant under any
further `add_vitals` calls. -/
theorem baseline_established_once (cap : ℕ) (hcap : 20 ≤ cap)
    (rs more : List Reading) :
    (rs.length < 20 →
      (rs.foldl addVitals (mkBuffer cap)).baselineEstablished = false ∧
      (rs.foldl addVitals (mkBuffer cap)).baseline = none ∧
      (rs.foldl addVitals (mkBuffer cap)).baselineStdSq = none) ∧
    (20 ≤ rs.length →
      (rs.foldl addVitals (mkBuffer cap)).baselineEstablished = true ∧
      (rs.foldl addVitals (mkBuffer cap)).baseline =
        some (fun v => listMean ((rs.take 20).map (fun r => r v))) ∧
      (rs.foldl addVitals (mkBuffer cap)).baselineStdSq =
        some (fun v => flooredVarStd ((rs.take 20).map (fun r => r v))) ∧
      (more.foldl addVitals (rs.foldl addVitals (mkBuffer cap))).baseline =
        (rs.foldl addVitals (mkBuffer cap)).baseline ∧
      (more.foldl addVitals (rs.foldl addVitals (mkBuffer cap))).baselineStdSq =
        (rs.foldl addVitals (mkBuffer cap)).baselineStdSq ∧
      (more.foldl addVitals (rs.foldl addVitals (mkBuffer cap))).baselineEstablished
        = true) := by
  constructor
  · intro hlt
    rw [foldl_fresh_small cap rs (by omega) (by omega)]
    exact ⟨rfl, rfl, rfl⟩
  · intro hge
    have htl : (rs.take 20).length = 20 := by rw [List.length_take]; omega
    have hfold : rs.foldl addVitals (mkBuffer cap) =
        (rs.drop 20).foldl addVitals
          ⟨cap, rs.take 20,
           some (fun v => listMean ((rs.take 20).map (fun r => r v))),
           some (fun v => flooredVarStd ((rs.take 20).map (fun r => r v))),
           true⟩ := by
      conv_lhs => rw [← List.take_append_drop 20 rs]
      rw [List.foldl_append, foldl_fresh_twenty cap hcap (rs.take 20) htl]
    obtain ⟨f1, f2, f3⟩ := foldl_baseline_frame (rs.drop 20)
      ⟨cap, rs.take 20,
       some (fun v => listMean ((rs.take 20).map (fun r => r v))),
       some (fun v => flooredVarStd ((rs.take 20).map (fun r => r v))),
       true⟩ rfl
    obtain ⟨g1, g2, g3⟩ := foldl_baseline_frame more
      (rs.foldl addVitals (mkBuffer cap)) (by rw [hfold]; exact f3)
    exact ⟨by rw [hfold]; exact f3, by rw [hfold, f1], by rw [hfold, f2],
           g1, g2, g3⟩

/-- A synthetic stable reading (HR 75, SBP 120, DBP 80, RR 16, SpO2 98,
Temp 36.8). -/
def rStable : Reading := fun v => match v with
  | .hr => 75 | .sbp => 120 | .dbp => 80 | .rr => 16 | .spo2 => 98
  | .temp => 368/10

/-- A stable reading with heart rate 76 instead of 75. -/
def rStable76 : Reading := fun v => match v with
  | .hr => 76 | .sbp => 120 | .dbp => 80 | .rr => 16 | .spo2 => 98
  | .temp => 368/10

/-- Witness for `baseline_established_once`: 20 stable readings establish
the baseline; one further reading leaves it unchanged. -/
theorem baseline_established_once_witness :
    ((List.replicate 20 rStable).foldl addVitals (mkBuffer 100)).baselineEstablished
      = true ∧
    ([rStable76].foldl addVitals
        ((List.replicate 20 rStable).foldl addVitals (mkBuffer 100))).baseline =
      ((List.replicate 20 rStable).foldl addVitals (mkBuffer 100)).baseline := by
  have h := (baseline_established_once 100 (by omega) (List.replicate 20 rStable)
    [rStable76]).2 (by simp)
  exact ⟨h.1, h.2.2.2.1⟩

/-- C2 counterexample: 20 readings whose heart rate alternates between 75
and 76 establish a baseline whose heart-rate std is 1/2 (squared: 1/4),
strictly below the claimed floor of 1.0.  The code only replaces a *zero*
std by 1.0; it does not floor small positive stds. -/
theorem baseline_std_below_one :
    baselineStdSqAt
      ((List.replicate 10 rStable ++ List.replicate 10 rStable76).foldl
        addVitals (mkBuffer 100)) Vital.hr = some (1/4) ∧
    ¬ ((1:ℚ) ≤ 1/4) := by
  constructor
  · rw [foldl_fresh_twenty 100 (by omega)
      (List.replicate 10 rStable ++ List.replicate 10 rStable76) (by simp)]
    simp only [baselineStdSqAt, Option.map]
    norm_num [flooredVarStd, popVar, listMean, rStable, rStable76,
      List.replicate, Option.some.injEq]
  · norm_num

theorem addVitals_stdSqAt_pos (b : PatientBuffer) (r : Reading) (v : Vital)
    (hb : ∀ q, baselineStdSqAt b v = some q → 0 < q) :
    ∀ q, baselineStdSqAt (addVitals b r) v = some q → 0 < q := by
  intro q hq
  simp only [addVitals] at hq
  split at hq
  · simp only [establishBaseline] at hq
    split at hq
    · exact hb q hq
    · simp only [baselineStdSqAt, Option.map, Option.some.injEq] at hq
      rw [← hq]
      exact flooredVarStd_pos _
  · exact hb q hq

/-- C2 (amended): every per-vital (squared) std stored by
`_establish_baseline` along any ingestion history is strictly positive —
zero variance is replaced by 1.0, so the z-score division in
`get_deviation_from_baseline` never divides by zero — and likewise for
`BaselineDriftAgent.learn_baseline`.  (The std may still be below 1.0,
see `baseline_std_below_one`.) -/
theorem baseline_std_positive (cap : ℕ) (rs : List Reading) (v : Vital)
    (arr : List ℚ) :
    (∀ q, baselineStdSqAt (rs.foldl addVitals (mkBuffer cap)) v = some q → 0 < q) ∧
    0 < learnBaselineStdSq arr := by
  constructor
  · have main : ∀ (b : PatientBuffer),
        (∀ q, baselineStdSqAt b v = some q → 0 < q) →
        ∀ q, baselineStdSqAt (rs.foldl addVitals b) v = some q → 0 < q := by
      induction rs with
      | nil => intro b hb; exact hb
      | cons r rest ih =>
        intro b hb
        rw [List.foldl_cons]
        exact ih (addVitals b r) (addVitals_stdSqAt_pos b r v hb)
    apply main (mkBuffer cap)
    intro q hq
    simp [baselineStdSqAt, mkBuffer] at hq
  · unfold learnBaselineStdSq
    split
    · split
      · assumption
      · norm_num
    · norm_num

/-- Witness for `baseline_std_positive`: 20 constant readings give a
zero-variance heart-rate series, stored std 1.0, which is positive. -/
theorem baseline_std_positive_witness :
    baselineStdSqAt ((List.replicate 20 rStable).foldl addVitals (mkBuffer 100))
      Vital.hr = some 1 ∧
    (0:ℚ) < 1 ∧ 0 < learnBaselineStdSq [75] := by
  have heval : baselineStdSqAt
      ((List.replicate 20 rStable).foldl addVitals (mkBuffer 100)) Vital.hr
        = some 1 := by
    rw [foldl_fresh_twenty 100 (by omega) (List.replicate 20 rStable) (by simp)]
    simp only [baselineStdSqAt, Option.map]
    norm_num [flooredVarStd, popVar, listMean, rStable, List.replicate]
  exact ⟨heval,
    (baseline_std_positive 100 (List.replicate 20 rStable) Vital.hr [75]).1 1 heval,
    (baseline_std_positive 100 (List.replicate 20 rStable) Vital.hr [75]).2⟩

/-! ### Consensus (claim C1) -/

/-- Embeds `AgentCoordinator._build_consensus` (`backend/agents/coordinator.py`):
weighted sum of the four raw scores with weights ML 0.40, pattern 0.25,
drift 0.20, trend 0.15; if the maximum raw score exceeds 0.7 the sum is
raised to at least 0.9 of that maximum; the result is clamped to 1.0. -/
def buildConsensus (ml pat drift trend : ℚ) : ℚ :=
  let weightedSum :=
    ml * (40/100) + pat * (25/100) + drift * (20/100) + trend * (15/100)
  let maxRisk := max (max ml pat) (max drift trend)
  let adjusted := if 7/10 < maxRisk then max weightedSum (maxRisk * (9/10))
                  else weightedSum
  min adjusted 1

/-- C1: for raw scores in [0,1] the consensus (a) is at least 0.9 of the
maximum whenever that maximum exceeds 0.7, (b) is never below the
weighted sum, (c) is at most 1, and (d) is ≥ 0.855 whenever one of the
scores equals 0.95. -/
theorem consensus_safety_override (ml pat drift trend : ℚ)
    (hml0 : 0 ≤ ml) (hml1 : ml ≤ 1) (hpat0 : 0 ≤ pat) (hpat1 : pat ≤ 1)
    (hdr0 : 0 ≤ drift) (hdr1 : drift ≤ 1) (htr0 : 0 ≤ trend) (htr1 : trend ≤ 1) :
    (7/10 < max (max ml pat) (max drift trend) →
      (max (max ml pat) (max drift trend)) * (9/10)
        ≤ buildConsensus ml pat drift trend) ∧
    ml * (40/100) + pat * (25/100) + drift * (20/100) + trend * (15/100)
      ≤ buildConsensus ml pat drift trend ∧
    buildConsensus ml pat drift trend ≤ 1 ∧
    ((ml = 19/20 ∨ pat = 19/20 ∨ drift = 19/20 ∨ trend = 19/20) →
      171/200 ≤ buildConsensus ml pat drift trend) := by
  have hmax1 : max (max ml pat) (max drift trend) ≤ 1 := by
    simp only [max_le_iff]
    exact ⟨⟨hml1, hpat1⟩, hdr1, htr1⟩
  have hws1 : ml * (40/100) + pat * (25/100) + drift * (20/100) + trend * (15/100)
      ≤ 1 := by nlinarith
  have hover : 7/10 < max (max ml pat) (max drift trend) →
      (max (max ml pat) (max drift trend)) * (9/10)
        ≤ buildConsensus ml pat drift trend := by
    intro hm
    simp only [buildConsensus]
    rw [if_pos hm]
    apply le_min
    · exact le_max_right _ _
    · nlinarith
  refine ⟨hover, ?_, ?_, ?_⟩
  · simp only [buildConsensus]
    split
    · exact le_min (le_trans (le_max_left _ _) (le_refl _)) hws1
    · exact le_min (le_refl _) hws1
  · exact min_le_right _ _
  · intro hcase
    have hm : 19/20 ≤ max (max ml pat) (max drift trend) := by
      rcases hcase with h | h | h | h
      · exact le_trans (le_of_eq h.symm) (le_trans (le_max_left _ _) (le_max_left _ _))
      · exact le_trans (le_of_eq h.symm) (le_trans (le_max_right _ _) (le_max_left _ _))
      · exact le_trans (le_of_eq h.symm) (le_trans (le_max_left _ _) (le_max_right _ _))
      · exact le_trans (le_of_eq h.symm) (le_trans (le_max_right _ _) (le_max_right _ _))
    have h7 : (7:ℚ)/10 < max (max ml pat) (max drift trend) := by linarith
    have := hover h7
    nlinarith

/-- Witness for `consensus_safety_override` at ML 0.95 with all detector
scores 0: weighted sum 0.38, max 0.95, consensus 0.855. -/
theorem consensus_safety_override_witness :
    (7/10 < max (max (19/20 : ℚ) 0) (max 0 0) →
      (max (max (19/20 : ℚ) 0) (max 0 0)) * (9/10)
        ≤ buildConsensus (19/20) 0 0 0) ∧
    (19/20 : ℚ) * (40/100) + 0 * (25/100) + 0 * (20/100) + 0 * (15/100)
      ≤ buildConsensus (19/20) 0 0 0 ∧
    buildConsensus (19/20) 0 0 0 ≤ 1 ∧
    (((19:ℚ)/20 = 19/20 ∨ (0:ℚ) = 19/20 ∨ (0:ℚ) = 19/20 ∨ (0:ℚ) = 19/20) →
      171/200 ≤ buildConsensus (19/20) 0 0 0) :=
  consensus_safety_override (19/20) 0 0 0 (by norm_num) (by norm_num)
    (by norm_num) (by norm_num) (by norm_num) (by norm_num)
    (by norm_num) (by norm_num)

/-! ### Alert escalation (claims C5 and C9),
`backend/agents/alert_agent.py` -/

/-- The four alert tiers. -/
inductive AlertLevel
  | info | warning | critical | emergency
  deriving DecidableEq, Repr

/-- Embeds `AlertEscalationAgent.cooldown_periods`, in seconds. -/
def cooldownPeriod : AlertLevel → ℤ
  | .info => 600
  | .warning => 300
  | .critical => 120
  | .emergency => 60

/-- One entry of `AlertEscalationAgent.alert_history[patient_id]`. -/
structure HistEntry where
  level : AlertLevel
  timestamp : ℤ
  riskScore : ℚ
  deriving DecidableEq, Repr

/-- The fields of the emitted `Alert` referenced by the claims (message,
actions, escalation targets and response time are presentation data and
are not modelled). -/
structure AlertR where
  level : AlertLevel
  riskScore : ℚ
  deriving DecidableEq, Repr

/-- Embeds `AlertEscalationAgent._determine_level`. -/
def determineLevel (risk : ℚ) : Option AlertLevel :=
  if 9/10 ≤ risk then some .emergency
  else if 3/4 ≤ risk then some .critical
  else if 1/2 ≤ risk then some .warning
  else if 7/20 ≤ risk then some .info
  else none

/-- The backward scan of `_is_on_cooldown`: walk entries most recent
first; at the first entry of the same tier, answer whether it is inside
the cooldown window and stop. -/
def scanCooldown (lvl : AlertLevel) (now : ℤ) : List HistEntry → Bool
  | [] => false
  | e :: rest =>
    if e.level = lvl then decide (now - e.timestamp < cooldownPeriod lvl)
    else scanCooldown lvl now rest

/-- Embeds `AlertEscalationAgent._is_on_cooldown` (history is stored oldest
first; the Python loop iterates `reversed(history)`). -/
def isOnCooldown (hist : List HistEntry) (lvl : AlertLevel) (now : ℤ) : Bool :=
  scanCooldown lvl now hist.reverse

/-- Embeds `AlertEscalationAgent._record_alert`: append the entry, then keep only
the most recent 20 entries. -/
def recordAlert (hist : List HistEntry) (lvl : AlertLevel) (now : ℤ)
    (risk : ℚ) : List HistEntry :=
  let h := hist ++ [⟨lvl, now, risk⟩]
  if 20 < h.length then h.drop (h.length - 20) else h

/-- Embeds `AlertEscalationAgent.generate_alert` for one patient: returns the
optional alert and the patient's updated history. -/
def generateAlert (hist : List HistEntry) (risk : ℚ) (now : ℤ) :
    Option AlertR × List HistEntry :=
  match determineLevel risk with
  | none => (none, hist)
  | some lvl =>
    if isOnCooldown hist lvl now then (none, hist)
    else (some ⟨lvl, risk⟩, recordAlert hist lvl now risk)

/-- C5: (1) a same-tier entry inside the cooldown window suppresses the
alert; (2) the scan is governed by the most recent same-tier entry only,
and entries of a different tier never affect it; (3) two same-tier alerts
at `t` and `t + cooldown - 1` have the second suppressed, while at
`t + cooldown + 1` it is emitted. -/
theorem alert_cooldown_dedup :
    (∀ (hist : List HistEntry) (risk : ℚ) (now : ℤ) (lvl : AlertLevel),
      determineLevel risk = some lvl → isOnCooldown hist lvl now = true →
      generateAlert hist risk now = (none, hist)) ∧
    (∀ (hist : List HistEntry) (e : HistEntry) (lvl : AlertLevel) (now : ℤ),
      isOnCooldown (hist ++ [e]) lvl now =
        if e.level = lvl then decide (now - e.timestamp < cooldownPeriod lvl)
        else isOnCooldown hist lvl now) ∧
    (∀ (t : ℤ) (risk : ℚ) (lvl : AlertLevel),
      determineLevel risk = some lvl →
      (generateAlert [] risk t).1 = some ⟨lvl, risk⟩ ∧
      (generateAlert (generateAlert [] risk t).2 risk
        (t + cooldownPeriod lvl - 1)).1 = none ∧
      (generateAlert (generateAlert [] risk t).2 risk
        (t + cooldownPeriod lvl + 1)).1 = some ⟨lvl, risk⟩) := by
  refine ⟨?_, ?_, ?_⟩
  · intro hist risk now lvl hlvl hcd
    simp only [generateAlert, hlvl, hcd, if_pos]
  · intro hist e lvl now
    simp only [isOnCooldown, List.reverse_append, List.reverse_singleton,
      List.singleton_append, scanCooldown]
  · intro t risk lvl hlvl
    have hfirst : generateAlert [] risk t = (some ⟨lvl, risk⟩, [⟨lvl, t, risk⟩]) := by
      simp [generateAlert, hlvl, isOnCooldown, scanCooldown, recordAlert]
    have hcdpos : 0 < cooldownPeriod lvl := by
      cases lvl <;> norm_num [cooldownPeriod]
    refine ⟨by rw [hfirst], ?_, ?_⟩
    · rw [hfirst]
      have hcd : isOnCooldown [⟨lvl, t, risk⟩] lvl (t + cooldownPeriod lvl - 1)
          = true := by
        simp only [isOnCooldown, List.reverse_singleton, scanCooldown]
        simp only [if_true, decide_eq_true_eq]
        omega
      simp only [generateAlert, hlvl, hcd, if_pos]
    · rw [hfirst]
      have hcd : isOnCooldown [⟨lvl, t, risk⟩] lvl (t + cooldownPeriod lvl + 1)
          = false := by
        simp only [isOnCooldown, List.reverse_singleton, scanCooldown]
        simp only [if_true, decide_eq_false_iff_not]
        omega
      simp [generateAlert, hlvl, hcd]

/-- Witness for `alert_cooldown_dedup` at tier WARNING (risk 0.5,
cooldown 300 s): suppression inside the window, emission outside it. -/
theorem alert_cooldown_dedup_witness :
    generateAlert [⟨.warning, 0, 1/2⟩] (1/2) 100 = (none, [⟨.warning, 0, 1/2⟩]) ∧
    (generateAlert [] (1/2) 0).1 = some ⟨.warning, 1/2⟩ ∧
    (generateAlert (generateAlert [] (1/2) 0).2 (1/2) 299).1 = none ∧
    (generateAlert (generateAlert [] (1/2) 0).2 (1/2) 301).1
      = some ⟨.warning, 1/2⟩ := by
  have hlvl : determineLevel (1/2) = some .warning := by
    norm_num [determineLevel]
  have hcd : isOnCooldown [⟨.warning, 0, 1/2⟩] .warning 100 = true := by
    simp [isOnCooldown, scanCooldown, cooldownPeriod]
  have h3 := alert_cooldown_dedup.2.2 0 (1/2) .warning hlvl
  refine ⟨alert_cooldown_dedup.1 [⟨.warning, 0, 1/2⟩] (1/2) 100 .warning hlvl hcd,
    h3.1, ?_, ?_⟩
  · have := h3.2.1
    norm_num [cooldownPeriod] at this
    exact this
  · have := h3.2.2
    norm_num [cooldownPeriod] at this
    exact this

/-- C9: the history is unchanged whenever no alert is emitted; when one is
emitted, the new history is the old one with exactly the entry
`(tier, timestamp, score)` appended, trimmed to the most recent 20
entries, so it never exceeds 20 entries. -/
theorem alert_history_frame (hist : List HistEntry) (risk : ℚ) (now : ℤ) :
    ((generateAlert hist risk now).1 = none →
      (generateAlert hist risk now).2 = hist) ∧
    (∀ a : AlertR, (generateAlert hist risk now).1 = some a →
      (generateAlert hist risk now).2 =
        (hist ++ [(⟨a.level, now, risk⟩ : HistEntry)]).drop ((hist.length + 1) - 20) ∧
      (generateAlert hist risk now).2.length ≤ 20) := by
  cases hlvl : determineLevel risk with
  | none =>
    have hg : generateAlert hist risk now = (none, hist) := by
      simp [generateAlert, hlvl]
    rw [hg]
    exact ⟨fun _ => rfl, fun a ha => by simp at ha⟩
  | some lvl =>
    by_cases hcd : isOnCooldown hist lvl now
    · have hg : generateAlert hist risk now = (none, hist) := by
        simp [generateAlert, hlvl, hcd]
      rw [hg]
      exact ⟨fun _ => rfl, fun a ha => by simp at ha⟩
    · have hg : generateAlert hist risk now
          = (some ⟨lvl, risk⟩, recordAlert hist lvl now risk) := by
        simp [generateAlert, hlvl, hcd]
      rw [hg]
      refine ⟨fun h => by simp at h, fun a ha => ?_⟩
      have haa : a = (⟨lvl, risk⟩ : AlertR) := by
        simpa using ha.symm
      subst haa
      constructor
      · simp only [recordAlert, List.length_append, List.length_singleton]
        split
        · rfl
        · have : hist.length + 1 - 20 = 0 := by
            simp only [List.length_append, List.length_singleton] at *
            omega
          rw [this, List.drop_zero]
      · simp only [recordAlert, List.length_append, List.length_singleton]
        split
        · simp only [List.length_drop, List.length_append, List.length_singleton]
          omega
        · simp only [List.length_append, List.length_singleton] at *
          omega

/-- Witness for `alert_history_frame`: risk 0.8 on an empty history emits
a CRITICAL alert and the history becomes that single entry. -/
theorem alert_history_frame_witness :
    (generateAlert [] (4/5) 7).2 =
      (([] : List HistEntry) ++ [(⟨.critical, 7, 4/5⟩ : HistEntry)]).drop ((0 + 1) - 20) ∧
    (generateAlert [] (4/5) 7).2.length ≤ 20 := by
  have hsome : (generateAlert [] (4/5) 7).1 = some ⟨.critical, 4/5⟩ := by
    norm_num [generateAlert, determineLevel, isOnCooldown, scanCooldown]
  have h := (alert_history_frame [] (4/5) 7).2 ⟨.critical, 4/5⟩ hsome
  simpa using h

/-! ### Pattern recognition (claims C4, C6 and C8),
`backend/agents/pattern_agent.py` -/

/-- Qualitative vital-state labels produced by `_analyze_vitals` and used
in pattern criteria (`varLbl` is the catalog's `"variable"`). -/
inductive Label
  | normal | low | veryLow | borderline | elevated | high | veryHigh
  | extreme | increasing | decreasing | abnormal | normalOrDecreasing
  | varLbl
  deriving DecidableEq, Repr

/-- Table `match_groups` of `_condition_matches`: expected label → accepted actual
labels; labels absent from the table admit only an exact match. -/
def matchGroup : Label → Option (List Label)
  | .increasing => some [.increasing, .high, .elevated, .veryHigh]
  | .decreasing => some [.decreasing, .low, .veryLow]
  | .high => some [.high, .elevated, .veryHigh, .extreme]
  | .low => some [.low, .veryLow]
  | .elevated => some [.elevated, .high, .increasing]
  | .abnormal => some [.high, .low, .veryHigh, .veryLow, .elevated, .abnormal,
                       .extreme]
  | .normalOrDecreasing => some [.normal, .decreasing, .low]
  | .varLbl => some [.normal, .high, .low, .increasing, .decreasing]
  | _ => none

/-- Embeds `PatternRecognitionAgent._condition_matches`. -/
def conditionMatches (actual expected : Label) : Bool :=
  if actual = expected then true
  else
    match matchGroup expected with
    | some g => decide (actual ∈ g)
    | none => false

/-- Embeds `PatternCriteria` (the free-text description is presentation data and
is not modelled). -/
structure PatternCriteria where
  name : String
  severity : ℚ
  criteria : List (Vital × Label)

/-- Embeds `PatternRecognitionAgent._define_patterns`: the static catalog of 15
clinical deterioration patterns. -/
def patternCatalog : List PatternCriteria :=
  [ ⟨"early_sepsis", 6/10,
      [(.hr, .increasing), (.temp, .elevated), (.rr, .increasing),
       (.sbp, .normalOrDecreasing)]⟩,
    ⟨"septic_shock", 95/100,
      [(.hr, .veryHigh), (.sbp, .veryLow), (.spo2, .decreasing),
       (.temp, .abnormal)]⟩,
    ⟨"compensated_shock", 7/10,
      [(.hr, .high), (.sbp, .decreasing), (.spo2, .normal)]⟩,
    ⟨"decompensated_shock", 9/10,
      [(.hr, .veryHigh), (.sbp, .low), (.rr, .high), (.spo2, .decreasing)]⟩,
    ⟨"respiratory_distress", 75/100,
      [(.rr, .veryHigh), (.spo2, .decreasing), (.hr, .high)]⟩,
    ⟨"hypoxemia", 8/10,
      [(.spo2, .veryLow), (.rr, .high), (.hr, .increasing)]⟩,
    ⟨"ards_precursor", 85/100,
      [(.spo2, .decreasing), (.rr, .veryHigh), (.hr, .high)]⟩,
    ⟨"bradycardia_alert", 65/100,
      [(.hr, .veryLow), (.sbp, .decreasing)]⟩,
    ⟨"tachycardia_persistent", 5/10,
      [(.hr, .high), (.temp, .elevated)]⟩,
    ⟨"cardiac_arrest_precursor", 1,
      [(.hr, .extreme), (.sbp, .veryLow), (.spo2, .veryLow)]⟩,
    ⟨"febrile_response", 45/100,
      [(.temp, .high), (.hr, .elevated), (.rr, .elevated)]⟩,
    ⟨"hypothermia_warning", 7/10,
      [(.temp, .veryLow), (.hr, .low)]⟩,
    ⟨"hypotension_progressive", 75/100,
      [(.sbp, .decreasing), (.dbp, .decreasing), (.hr, .increasing)]⟩,
    ⟨"hypertensive_crisis", 8/10,
      [(.sbp, .veryHigh), (.dbp, .veryHigh), (.hr, .varLbl)]⟩,
    ⟨"multi_organ_stress", 85/100,
      [(.hr, .abnormal), (.sbp, .abnormal), (.rr, .abnormal),
       (.spo2, .abnormal), (.temp, .abnormal)]⟩ ]

/-- Embeds `PatientBuffer.get_window` for one vital: the most recent `n` entries
(all of them when fewer exist). -/
def getWindow (b : PatientBuffer) (n : ℕ) (v : Vital) : List ℚ :=
  (b.series v).drop ((b.series v).length - n)

/-- Embeds `get_latest()[v]` with the per-vital default of `_analyze_vitals`
(`get_latest` returns `{}` on an empty buffer, so the `dict.get` default
applies exactly then). -/
def latestD (b : PatientBuffer) (v : Vital) (d : ℚ) : ℚ :=
  match b.readings.getLast? with
  | none => d
  | some r => r v

/-- Heart-rate breakpoint classification of `_analyze_vitals`. -/
def hrLevel (hr : ℚ) : Label :=
  if 140 < hr then .extreme
  else if 120 < hr then .veryHigh
  else if 100 < hr then .high
  else if hr < 50 then .veryLow
  else if hr < 60 then .low
  else .normal

/-- Systolic-BP breakpoint classification of `_analyze_vitals`. -/
def sbpLevel (sbp : ℚ) : Label :=
  if 180 < sbp then .veryHigh
  else if 140 < sbp then .high
  else if sbp < 80 then .veryLow
  else if sbp < 90 then .low
  else .normal

/-- Diastolic-BP breakpoint classification of `_analyze_vitals`. -/
def dbpLevel (dbp : ℚ) : Label :=
  if 120 < dbp then .veryHigh
  else if dbp < 60 then .low
  else .normal

/-- Respiratory-rate breakpoint classification of `_analyze_vitals`. -/
def rrLevel (rr : ℚ) : Label :=
  if 30 < rr then .veryHigh
  else if 24 < rr then .high
  else if 20 < rr then .elevated
  else if rr < 10 then .veryLow
  else .normal

/-- SpO2 breakpoint classification of `_analyze_vitals`. -/
def spo2Level (s : ℚ) : Label :=
  if s < 85 then .veryLow
  else if s < 90 then .low
  else if s < 94 then .borderline
  else .normal

/-- Temperature breakpoint classification of `_analyze_vitals`. -/
def tempLevel (t : ℚ) : Label :=
  if 395/10 < t then .veryHigh
  else if 383/10 < t then .high
  else if 375/10 < t then .elevated
  else if t < 355/10 then .veryLow
  else if t < 36 then .low
  else .normal

/-- Embeds `PatternRecognitionAgent._analyze_vitals`: breakpoint label per vital,
then the trend overrides (heart rate only when the label is `normal`;
systolic BP, respiratory rate and SpO2 unconditionally) and the
temperature `abnormal` override. -/
def analyzeVitals (b : PatientBuffer) : Vital → Label := fun v =>
  match v with
  | .hr =>
    let base := hrLevel (latestD b .hr 80)
    let arr := getWindow b 6 .hr
    if 3 ≤ arr.length ∧ arr.headD 0 * (11/10) < arr.getLastD 0 then
      (if base = .normal then .increasing else base)
    else base
  | .sbp =>
    let base := sbpLevel (latestD b .sbp 120)
    let arr := getWindow b 6 .sbp
    if 3 ≤ arr.length ∧ arr.getLastD 0 < arr.headD 0 * (9/10) then .decreasing
    else base
  | .dbp => dbpLevel (latestD b .dbp 80)
  | .rr =>
    let base := rrLevel (latestD b .rr 16)
    let arr := getWindow b 6 .rr
    if 3 ≤ arr.length ∧ arr.headD 0 * (115/100) < arr.getLastD 0 then .increasing
    else base
  | .spo2 =>
    let base := spo2Level (latestD b .spo2 98)
    let arr := getWindow b 6 .spo2
    if 3 ≤ arr.length ∧ arr.getLastD 0 < arr.headD 0 - 2 then .decreasing
    else base
  | .temp =>
    let t := latestD b .temp 37
    if 38 < t ∨ t < 36 then .abnormal else tempLevel t

/-- One reported pattern match (`PatternMatch`, name and confidence). -/
structure MatchR where
  pattern_name : String
  confidence : ℚ
  deriving DecidableEq, Repr

/-- Embeds `PatternRecognitionAgent._check_pattern`: fraction of criteria whose
actual label semantically matches, reported (with the matching vitals)
only when at least 60% match. -/
def checkPattern (p : PatternCriteria) (va : Vital → Label) :
    Option (ℚ × List Vital) :=
  let matched := p.criteria.filter (fun c => conditionMatches (va c.1) c.2)
  if (3/5 : ℚ) ≤ (matched.length : ℚ) / (p.criteria.length : ℚ) then
    some ((matched.length : ℚ) / (p.criteria.length : ℚ), matched.map Prod.fst)
  else none

/-- Stable descending insertion by confidence (the semantics of Python's
stable `list.sort(key=confidence, reverse=True)`). -/
def insertByConfDesc (x : MatchR) : List MatchR → List MatchR
  | [] => [x]
  | y :: ys => if y.confidence ≤ x.confidence then x :: y :: ys
               else y :: insertByConfDesc x ys

/-- Stable descending sort by confidence. -/
def sortByConfDesc : List MatchR → List MatchR
  | [] => []
  | x :: xs => insertByConfDesc x (sortByConfDesc xs)

/-- Embeds `PatternRecognitionAgent.detect_patterns`: empty below 3 readings;
otherwise every catalog pattern passing `_check_pattern`, with confidence
`matchFraction * severity`, sorted by descending confidence. -/
def detectPatterns (b : PatientBuffer) : List MatchR :=
  if b.size < 3 then []
  else
    sortByConfDesc (patternCatalog.filterMap (fun p =>
      (checkPattern p (analyzeVitals b)).map
        (fun r => ⟨p.name, r.1 * p.severity⟩)))

theorem mem_insertByConfDesc {a x : MatchR} {l : List MatchR} :
    a ∈ insertByConfDesc x l ↔ a = x ∨ a ∈ l := by
  induction l with
  | nil => simp [insertByConfDesc]
  | cons y ys ih =>
    simp only [insertByConfDesc]
    split
    · simp
    · simp only [List.mem_cons, ih]
      tauto

theorem mem_sortByConfDesc {a : MatchR} {l : List MatchR} :
    a ∈ sortByConfDesc l ↔ a ∈ l := by
  induction l with
  | nil => simp [sortByConfDesc]
  | cons x xs ih =>
    simp only [sortByConfDesc, mem_insertByConfDesc, ih, List.mem_cons]

theorem patternCatalog_severity_bounds :
    ∀ p ∈ patternCatalog, 0 ≤ p.severity ∧ p.severity ≤ 1 := by
  intro p hp
  fin_cases hp <;> norm_num

/-- C6: every reported pattern match comes from a catalog pattern whose
criteria matched with fraction in [0.6, 1]; the reported confidence is
that fraction times the pattern's severity, hence lies in
[0, severityWeight]. -/
theorem pattern_confidence_bounds (b : PatientBuffer) (m : MatchR)
    (hm : m ∈ detectPatterns b) :
    ∃ p ∈ patternCatalog, ∃ frac : ℚ, ∃ mc : List Vital,
      checkPattern p (analyzeVitals b) = some (frac, mc) ∧
      m.confidence = frac * p.severity ∧
      3/5 ≤ frac ∧ frac ≤ 1 ∧
      0 ≤ m.confidence ∧ m.confidence ≤ p.severity := by
  unfold detectPatterns at hm
  split at hm
  · simp at hm
  · rw [mem_sortByConfDesc, List.mem_filterMap] at hm
    obtain ⟨p, hp, hsome⟩ := hm
    cases hcp : checkPattern p (analyzeVitals b) with
    | none => rw [hcp] at hsome; simp at hsome
    | some r =>
      rw [hcp] at hsome
      simp only [Option.map, Option.some.injEq] at hsome
      obtain ⟨frac, mc⟩ := r
      refine ⟨p, hp, frac, mc, hcp, ?_⟩
      have hmconf : m.confidence = frac * p.severity := by
        rw [← hsome]
      have hfrac : 3/5 ≤ frac ∧ frac ≤ 1 := by
        simp only [checkPattern] at hcp
        set matched := p.criteria.filter
          (fun c => conditionMatches (analyzeVitals b c.1) c.2) with hmdef
        split at hcp
        · next hcond =>
          simp only [Option.some.injEq, Prod.mk.injEq] at hcp
          obtain ⟨hfrac_eq, _⟩ := hcp
          rw [← hfrac_eq]
          have hlenle : matched.length ≤ p.criteria.length := by
            rw [hmdef]; exact List.length_filter_le _ _
          have hpos : 0 < p.criteria.length := by
            by_contra hz
            push_neg at hz
            interval_cases hcl : p.criteria.length
            have hm0 : matched.length = 0 := by omega
            rw [hm0] at hcond
            norm_num at hcond
          refine ⟨hcond, ?_⟩
          rw [div_le_one (by positivity)]
          exact_mod_cast hlenle
        · exact absurd hcp (by simp)
      have hsev := patternCatalog_severity_bounds p hp
      refine ⟨hmconf, hfrac.1, hfrac.2, ?_, ?_⟩
      · rw [hmconf]
        have : (0:ℚ) ≤ frac := le_trans (by norm_num) hfrac.1
        exact mul_nonneg this hsev.1
      · rw [hmconf]
        exact mul_le_of_le_one_left hsev.1 hfrac.2

/-- The anomalous reading of the C4 scenario: HR 145, SBP 80, SpO2 88
(remaining vitals at their stable values). -/
def rShock : Reading := fun v => match v with
  | .hr => 145 | .sbp => 80 | .dbp => 80 | .rr => 16 | .spo2 => 88
  | .temp => 368/10

/-- The C4 scenario buffer: 20 stable readings then `rShock`.
`detect_patterns` reads only the reading lists, so the baseline fields
(which `add_vitals` would have filled at the 20th reading) are left at
their initial values. -/
def shockBuffer : PatientBuffer :=
  ⟨100, List.replicate 20 rStable ++ [rShock], none, none, false⟩

theorem analyzeVitals_shockBuffer :
    analyzeVitals shockBuffer .hr = .extreme ∧
    analyzeVitals shockBuffer .sbp = .decreasing ∧
    analyzeVitals shockBuffer .dbp = .normal ∧
    analyzeVitals shockBuffer .rr = .normal ∧
    analyzeVitals shockBuffer .spo2 = .decreasing ∧
    analyzeVitals shockBuffer .temp = .normal := by
  refine ⟨?_, ?_, ?_, ?_, ?_, ?_⟩ <;>
  · norm_num [analyzeVitals, latestD, getWindow, PatientBuffer.series,
      shockBuffer, hrLevel, sbpLevel, dbpLevel, rrLevel, spo2Level, tempLevel,
      List.replicate, rStable, rShock, List.getLast?_append]
    try decide

theorem shockBuffer_patterns :
    detectPatterns shockBuffer =
      [⟨"ards_precursor", 17/30⟩, ⟨"respiratory_distress", 1/2⟩,
       ⟨"compensated_shock", 7/15⟩] := by
  obtain ⟨h1, h2, h3, h4, h5, h6⟩ := analyzeVitals_shockBuffer
  have hsize : ¬ shockBuffer.size < 3 := by
    simp [PatientBuffer.size, shockBuffer]
  rw [detectPatterns, if_neg hsize]
  simp only [patternCatalog, List.filterMap_cons, List.filterMap_nil,
    checkPattern, List.filter_cons, List.filter_nil,
    conditionMatches, matchGroup, h1, h2, h3, h4, h5, h6, reduceCtorEq,
    List.mem_cons, List.not_mem_nil, or_false, false_or, or_true, true_or,
    if_true, if_false, eq_self_iff_true, List.length_cons, List.length_nil,
    Option.map]
  norm_num [sortByConfDesc, insertByConfDesc]

/-- C4 counterexample: in the spec's scenario (20 stable readings, then
HR 145 / SBP 80 / SpO2 88) the reported matches are exactly
`ards_precursor`, `respiratory_distress` and `compensated_shock`;
`septic_shock` and `decompensated_shock` are not reported at all (HR 145
is classified `extreme`, which does not semantically match the expected
`very_high`; the trend overrides relabel SBP and SpO2 `decreasing`). -/
theorem septic_shock_not_reported :
    detectPatterns shockBuffer =
      [⟨"ards_precursor", 17/30⟩, ⟨"respiratory_distress", 1/2⟩,
       ⟨"compensated_shock", 7/15⟩] ∧
    ((detectPatterns shockBuffer).map MatchR.pattern_name).contains
      "septic_shock" = false ∧
    ((detectPatterns shockBuffer).map MatchR.pattern_name).contains
      "decompensated_shock" = false := by
  refine ⟨shockBuffer_patterns, ?_, ?_⟩ <;>
    rw [shockBuffer_patterns] <;> rfl

/-- C4 (amended): in that scenario `detect_patterns` reports
`ards_precursor` with confidence 17/30 > 0.5 (and also
`respiratory_distress` at 0.5 and `compensated_shock` at 7/15), not
`septic_shock`/`decompensated_shock`. -/
theorem shock_scenario_reports_ards :
    (⟨"ards_precursor", 17/30⟩ : MatchR) ∈ detectPatterns shockBuffer ∧
    (1/2 : ℚ) < 17/30 ∧
    (⟨"respiratory_distress", 1/2⟩ : MatchR) ∈ detectPatterns shockBuffer ∧
    (⟨"compensated_shock", 7/15⟩ : MatchR) ∈ detectPatterns shockBuffer := by
  rw [shockBuffer_patterns]
  refine ⟨by simp, by norm_num, by simp, by simp⟩

/-- A uniformly severe reading: HR 145, SBP 75, DBP 130, RR 35, SpO2 88,
Temp 40. -/
def rSevere : Reading := fun v => match v with
  | .hr => 145 | .sbp => 75 | .dbp => 130 | .rr => 35 | .spo2 => 88
  | .temp => 40

/-- A buffer holding three severe readings. -/
def sevBuffer : PatientBuffer :=
  ⟨100, [rSevere, rSevere, rSevere], none, none, false⟩

theorem analyzeVitals_sevBuffer :
    analyzeVitals sevBuffer .hr = .extreme ∧
    analyzeVitals sevBuffer .sbp = .veryLow ∧
    analyzeVitals sevBuffer .dbp = .veryHigh ∧
    analyzeVitals sevBuffer .rr = .veryHigh ∧
    analyzeVitals sevBuffer .spo2 = .low ∧
    analyzeVitals sevBuffer .temp = .abnormal := by
  refine ⟨?_, ?_, ?_, ?_, ?_, ?_⟩ <;>
  · norm_num [analyzeVitals, latestD, getWindow, PatientBuffer.series,
      sevBuffer, hrLevel, sbpLevel, dbpLevel, rrLevel, spo2Level, tempLevel,
      rSevere]
    try decide

theorem sevBuffer_patterns :
    detectPatterns sevBuffer =
      [⟨"ards_precursor", 17/20⟩, ⟨"multi_organ_stress", 17/20⟩,
       ⟨"respiratory_distress", 3/4⟩, ⟨"septic_shock", 57/80⟩,
       ⟨"decompensated_shock", 27/40⟩, ⟨"cardiac_arrest_precursor", 2/3⟩,
       ⟨"compensated_shock", 7/15⟩] := by
  obtain ⟨h1, h2, h3, h4, h5, h6⟩ := analyzeVitals_sevBuffer
  have hsize : ¬ sevBuffer.size < 3 := by
    simp [PatientBuffer.size, sevBuffer]
  rw [detectPatterns, if_neg hsize]
  simp only [patternCatalog, List.filterMap_cons, List.filterMap_nil,
    checkPattern, List.filter_cons, List.filter_nil,
    conditionMatches, matchGroup, h1, h2, h3, h4, h5, h6, reduceCtorEq,
    List.mem_cons, List.not_mem_nil, or_false, false_or, or_true, true_or,
    if_true, if_false, eq_self_iff_true, List.length_cons, List.length_nil,
    Option.map]
  norm_num [sortByConfDesc, insertByConfDesc]

/-- Witness for `pattern_confidence_bounds`: the `septic_shock` match on
`sevBuffer` (three criteria of four matched, severity 0.95, confidence
57/80). -/
theorem pattern_confidence_bounds_witness :
    ∃ p ∈ patternCatalog, ∃ frac : ℚ, ∃ mc : List Vital,
      checkPattern p (analyzeVitals sevBuffer) = some (frac, mc) ∧
      (⟨"septic_shock", 57/80⟩ : MatchR).confidence = frac * p.severity ∧
      3/5 ≤ frac ∧ frac ≤ 1 ∧
      0 ≤ (⟨"septic_shock", 57/80⟩ : MatchR).confidence ∧
      (⟨"septic_shock", 57/80⟩ : MatchR).confidence ≤ p.severity :=
  pattern_confidence_bounds sevBuffer ⟨"septic_shock", 57/80⟩
    (by rw [sevBuffer_patterns]; simp)

/-- C8 (amended): only the heart-rate trend override is conditioned on the
breakpoint label being `normal`; the systolic-BP, respiratory-rate and
SpO2 overrides replace *any* breakpoint label whenever the window shows
the directional change (SBP: last < 0.9 × first; RR: last > 1.15 × first;
SpO2: last < first − 2, an absolute 2-point drop). -/
theorem trend_override_semantics (b : PatientBuffer) :
    (hrLevel (latestD b .hr 80) ≠ .normal →
      analyzeVitals b .hr = hrLevel (latestD b .hr 80)) ∧
    (3 ≤ (getWindow b 6 .sbp).length →
      (getWindow b 6 .sbp).getLastD 0 < (getWindow b 6 .sbp).headD 0 * (9/10) →
      analyzeVitals b .sbp = .decreasing) ∧
    (3 ≤ (getWindow b 6 .rr).length →
      (getWindow b 6 .rr).headD 0 * (115/100) < (getWindow b 6 .rr).getLastD 0 →
      analyzeVitals b .rr = .increasing) ∧
    (3 ≤ (getWindow b 6 .spo2).length →
      (getWindow b 6 .spo2).getLastD 0 < (getWindow b 6 .spo2).headD 0 - 2 →
      analyzeVitals b .spo2 = .decreasing) := by
  refine ⟨?_, ?_, ?_, ?_⟩
  · intro hb
    simp only [analyzeVitals]
    split <;> simp [hb]
  · intro h3 hlt
    simp only [analyzeVitals]
    rw [if_pos ⟨h3, hlt⟩]
  · intro h3 hlt
    simp only [analyzeVitals]
    rw [if_pos ⟨h3, hlt⟩]
  · intro h3 hlt
    simp only [analyzeVitals]
    rw [if_pos ⟨h3, hlt⟩]

/-- First two readings of the C8 override scenario. -/
def rOverrideA : Reading := fun v => match v with
  | .hr => 145 | .sbp => 100 | .dbp => 80 | .rr => 16 | .spo2 => 98
  | .temp => 37

/-- Third reading of the C8 override scenario: SBP 79 (below the
`very_low` breakpoint 80) after a 21% in-window fall. -/
def rOverrideB : Reading := fun v => match v with
  | .hr => 145 | .sbp => 79 | .dbp => 80 | .rr => 20 | .spo2 => 95
  | .temp => 37

/-- The C8 buffer: two `rOverrideA` readings then `rOverrideB`. -/
def overrideBuffer : PatientBuffer :=
  ⟨100, [rOverrideA, rOverrideA, rOverrideB], none, none, false⟩

/-- C8 counterexample: the latest SBP 79 receives the non-normal
breakpoint label `very_low`, yet `_analyze_vitals` reports the trend
label `decreasing` for systolic BP — the trend override replaced a
non-normal breakpoint label. -/
theorem trend_override_replaces_very_low :
    latestD overrideBuffer Vital.sbp 120 = 79 ∧
    sbpLevel 79 = Label.veryLow ∧
    Label.veryLow ≠ Label.normal ∧
    analyzeVitals overrideBuffer Vital.sbp = Label.decreasing := by
  refine ⟨?_, ?_, ?_, ?_⟩
  · norm_num [latestD, overrideBuffer, rOverrideB]
  · norm_num [sbpLevel]
  · decide
  · norm_num [analyzeVitals, latestD, getWindow, PatientBuffer.series,
      overrideBuffer, sbpLevel, rOverrideA, rOverrideB]

/-- Witness for `trend_override_semantics` on `overrideBuffer`: HR 145 is
non-normal (`extreme`) and stays so; SBP, RR and SpO2 all satisfy their
directional conditions and are relabeled. -/
theorem trend_override_semantics_witness :
    analyzeVitals overrideBuffer .hr
      = hrLevel (latestD overrideBuffer .hr 80) ∧
    analyzeVitals overrideBuffer .sbp = .decreasing ∧
    analyzeVitals overrideBuffer .rr = .increasing ∧
    analyzeVitals overrideBuffer .spo2 = .decreasing := by
  obtain ⟨t1, t2, t3, t4⟩ := trend_override_semantics overrideBuffer
  refine ⟨t1 ?_, t2 ?_ ?_, t3 ?_ ?_, t4 ?_ ?_⟩
  · norm_num [latestD, overrideBuffer, rOverrideB, hrLevel]
    decide
  all_goals
    norm_num [getWindow, PatientBuffer.series, overrideBuffer,
      rOverrideA, rOverrideB]

/-! ### Ingestion minimum-data policy (claim C7), `backend/main.py` -/

/-- Result of one `POST /api/vitals` call.  The processed branch builds a
full dashboard update through the coordinator (invoking feature
engineering, the external ML scorer and all detector agents); that
payload is outside the modelled core, so `processed` carries no data.
The placeholder branch returns
`{"status": "learning_baseline", "readings": n}` — it carries only the
reading count, no risk score and no risk category. -/
inductive IngestResult
  | processed
  | learningBaseline (readings : ℕ)
  deriving DecidableEq, Repr

/-- Embeds `POST /api/vitals`: append the reading, then invoke the coordinator
pipeline only when the buffer holds at least 4 readings. -/
def ingestVitals (b : PatientBuffer) (r : Reading) :
    IngestResult × PatientBuffer :=
  let b' := addVitals b r
  if 4 ≤ b'.size then (.processed, b') else (.learningBaseline b'.size, b')

/-- C7: with fewer than 4 buffered readings the pipeline is skipped and
the emitted state is the `learning_baseline` placeholder, which is
distinct from every processed update (in particular it carries no
zero-risk LOW assessment); with 4 or more readings the pipeline runs. -/
theorem insufficient_data_placeholder (b : PatientBuffer) (r : Reading) :
    ((addVitals b r).size < 4 →
      (ingestVitals b r).1 = .learningBaseline (addVitals b r).size ∧
      (ingestVitals b r).1 ≠ .processed) ∧
    (4 ≤ (addVitals b r).size → (ingestVitals b r).1 = .processed) := by
  constructor
  · intro hlt
    have hneg : ¬ 4 ≤ (addVitals b r).size := by omega
    constructor
    · simp only [ingestVitals]
      rw [if_neg hneg]
    · simp only [ingestVitals]
      rw [if_neg hneg]
      simp
  · intro hge
    simp only [ingestVitals]
    rw [if_pos hge]

/-- Witness for `insufficient_data_placeholder`: the first reading of a
fresh buffer yields the placeholder with count 1. -/
theorem insufficient_data_placeholder_witness :
    (ingestVitals (mkBuffer 100) rStable).1 = .learningBaseline 1 ∧
    (ingestVitals (mkBuffer 100) rStable).1 ≠ .processed :=
  (insufficient_data_placeholder (mkBuffer 100) rStable).1 (by
    simp [addVitals, dequeAppend, mkBuffer, PatientBuffer.size])

/-! ### Trend prediction (claim C10), `backend/agents/trend_agent.py` -/

/-- Per-vital risk level of `_assess_prediction_risk`. -/
inductive RiskLevel
  | LOW | MODERATE | HIGH | UNKNOWN
  deriving DecidableEq, Repr

/-- Embeds `TrendPredictorAgent.critical_thresholds` (low, high). -/
def criticalThresholds : Vital → ℚ × ℚ
  | .hr => (50, 130)
  | .sbp => (85, 180)
  | .dbp => (50, 110)
  | .rr => (8, 28)
  | .spo2 => (88, 101)
  | .temp => (35, 39)

/-- One forecast of `_predict_vital`.  `ciSq` is the square of the
confidence half-width `1.96 · std · sqrt(horizon / n)`; the square is
stored because the half-width itself is irrational (see the header
comment), and every comparison made with it is sign-aware squared. -/
structure Projection where
  horizon : ℕ
  predictedValue : ℚ
  ciSq : ℚ
  deriving DecidableEq, Repr

/-- x-coordinates `0, 1, …, n-1` used by `np.polyfit`. -/
def idxList (n : ℕ) : List ℚ := (List.range n).map (fun i => (i : ℚ))

/-- Least-squares slope of `np.polyfit(x, w, 1)` over `x = 0..n-1`. -/
def lsSlope (w : List ℚ) : ℚ :=
  let n : ℚ := w.length
  let sx := (idxList w.length).sum
  let sy := w.sum
  let sxy := (((idxList w.length).zip w).map (fun p => p.1 * p.2)).sum
  let sxx := ((idxList w.length).map (fun x => x ^ 2)).sum
  (n * sxy - sx * sy) / (n * sxx - sx ^ 2)

/-- Least-squares intercept of `np.polyfit(x, w, 1)`. -/
def lsIntercept (w : List ℚ) : ℚ :=
  (w.sum - lsSlope w * (idxList w.length).sum) / (w.length : ℚ)

/-- The three forecasts of `_predict_vital` at horizons 2, 4 and 8
readings: `pred = intercept + slope * (n + horizon - 1)`,
`ci = 1.96 · std · sqrt(horizon / n)` (stored squared). -/
def projections (w : List ℚ) : List Projection :=
  [2, 4, 8].map (fun h =>
    { horizon := h,
      predictedValue := lsIntercept w + lsSlope w * ((w.length : ℚ) + (h : ℚ) - 1),
      ciSq := (196/100) ^ 2 * popVar w * (h : ℚ) / (w.length : ℚ) })

/-- The loop of `_assess_prediction_risk`: HIGH at the first point
forecast outside the critical band, MODERATE at the first confidence
interval crossing it, LOW otherwise.  `pred - ci < lo` is encoded as
`pred < lo ∨ (pred - lo)² < ciSq` (equivalent since `ci ≥ 0`), and
`hi < pred + ci` as `hi < pred ∨ (hi - pred)² < ciSq`. -/
def assessLoop (lo hi : ℚ) : List Projection → RiskLevel
  | [] => .LOW
  | p :: rest =>
    if p.predictedValue < lo ∨ hi < p.predictedValue then .HIGH
    else if (p.predictedValue < lo ∨ (p.predictedValue - lo) ^ 2 < p.ciSq) ∨
            (hi < p.predictedValue ∨ (hi - p.predictedValue) ^ 2 < p.ciSq) then
      .MODERATE
    else assessLoop lo hi rest

/-- Embeds `TrendPredictorAgent._assess_prediction_risk`. -/
def assessPredictionRisk (v : Vital) (preds : List Projection) : RiskLevel :=
  if preds.isEmpty then .UNKNOWN
  else assessLoop (criticalThresholds v).1 (criticalThresholds v).2 preds

/-- Risk level of `_predict_vital` for one vital's window. -/
def predictVitalRisk (v : Vital) (w : List ℚ) : RiskLevel :=
  assessPredictionRisk v (projections w)

/-- Embeds `predict_trends` risk level per vital: `_predict_vital` when the
window has at least 3 points, `_no_prediction` (UNKNOWN) otherwise. -/
def trendRiskLevel (b : PatientBuffer) (v : Vital) : RiskLevel :=
  let arr := getWindow b 6 v
  if 3 ≤ arr.length then predictVitalRisk v arr else .UNKNOWN

/-- Embeds `get_agent_output` risk contribution: 0.8 when any vital is HIGH, 0.5
when any is MODERATE (none HIGH), else 0.2.  (The code first builds the
set of levels excluding UNKNOWN; the exclusion cannot change either
membership test.) -/
def trendRiskContribution (b : PatientBuffer) : ℚ :=
  let levels := allVitals.map (trendRiskLevel b)
  if levels.contains .HIGH then 8/10
  else if levels.contains .MODERATE then 5/10
  else 2/10

/-- C10: the trend agent's risk contribution is always exactly one of
0.2, 0.5 or 0.8; when every vital has fewer than 3 window points
(including the empty buffer) it is 0.2, never 0. -/
theorem trend_contribution_values (b : PatientBuffer) :
    (trendRiskContribution b = 2/10 ∨ trendRiskContribution b = 5/10 ∨
      trendRiskContribution b = 8/10) ∧
    (b.readings.length < 3 → trendRiskContribution b = 2/10) := by
  constructor
  · simp only [trendRiskContribution]
    split
    · right; right; rfl
    · split
      · right; left; rfl
      · left; rfl
  · intro hlen
    have hwin : ∀ v, trendRiskLevel b v = .UNKNOWN := by
      intro v
      have hle : (getWindow b 6 v).length ≤ b.readings.length := by
        simp only [getWindow, PatientBuffer.series, List.length_drop,
          List.length_map]
        omega
      simp only [trendRiskLevel]
      rw [if_neg (by omega)]
    have hlevels : allVitals.map (trendRiskLevel b) =
        [.UNKNOWN, .UNKNOWN, .UNKNOWN, .UNKNOWN, .UNKNOWN, .UNKNOWN] := by
      simp [allVitals, hwin]
    simp only [trendRiskContribution, hlevels]
    rfl

/-- Witness for `trend_contribution_values`: the empty buffer contributes
exactly 0.2. -/
theorem trend_contribution_values_witness :
    trendRiskContribution (mkBuffer 100) = 2/10 :=
  (trend_contribution_values (mkBuffer 100)).2 (by simp [mkBuffer])
